import Mathlib

/-!
Shallow embedding of the persistent control connection subsystem of
go-libp2p-daemon (files `persistent_stream.go` and `p2pd/main.go`).

Byte strings are `List Nat`; a call id on the wire is the raw byte field
`CallId` of a `PersistentConnectionRequest`, and `uuid.FromBytes` succeeds
exactly when this field holds 16 bytes.  Maps (`registeredUnaryProtocols`,
the host handler table, `cancelUnary`, `responseWaiters`) are association
lists.  Concurrency is resolved by explicit environment records: each point
where the Go code races (context checks, the `select` statements) is an
oracle field in the environment, and every worker is a pure function of the
daemon state and its environment.
-/

namespace P2PD

/-- Raw bytes on the wire. -/
abbrev Bytes := List Nat

/-- `uuid.FromBytes` succeeds iff the input is exactly 16 bytes, and the
resulting `uuid.UUID` re-serialises (`callID[:]`) to the same bytes. -/
def uuidFromBytes (b : Bytes) : Option Bytes :=
  if b.length = 16 then some b else none

/-- The zero `uuid.UUID` that Go leaves in `callID` when `uuid.FromBytes`
returns an error. -/
def zeroUUID : Bytes := List.replicate 16 0

/-- `CallUnaryRequest { peer, proto, payload }` (also reused as the body of
the `RequestHandling` response). -/
structure CallUnaryMsg where
  peer : Bytes
  proto : String
  payload : Bytes
  deriving DecidableEq, Repr

/-- `UnaryCallResponse { payload | error }` — the body of `UnaryResponse`
requests and of `CallUnaryResponse` responses. -/
structure UnaryResponseMsg where
  payload : Option Bytes
  errorMsg : Option String
  deriving DecidableEq, Repr

/-- The `oneof message` of a `PersistentConnectionRequest`. -/
inductive ReqMsg where
  | addUnaryHandler (proto : String)
  | callUnary (m : CallUnaryMsg)
  | unaryResponse (m : UnaryResponseMsg)
  | cancel
  deriving DecidableEq, Repr

/-- `PersistentConnectionRequest`.  `message = none` models an unset oneof
(`req.Message == nil` in Go). -/
structure PersistentConnectionRequest where
  callId : Bytes
  message : Option ReqMsg
  deriving DecidableEq, Repr

/-- The `oneof message` of a `PersistentConnectionResponse`; `ok` is the
unset oneof that `okUnaryCallResponse` leaves behind. -/
inductive RespMsg where
  | ok
  | callUnaryResponse (m : Option UnaryResponseMsg)
  | requestHandling (m : Option CallUnaryMsg)
  | cancel
  | daemonError (msg : String)
  deriving DecidableEq, Repr

/-- `PersistentConnectionResponse`. -/
structure PersistentConnectionResponse where
  callId : Bytes
  message : RespMsg
  deriving DecidableEq, Repr

/-- `GetCallUnary()`: the generated getter returns the inner message when
the oneof holds the `CallUnary` variant and nil (`none`) otherwise. -/
def getCallUnary (r : PersistentConnectionRequest) : Option CallUnaryMsg :=
  match r.message with
  | some (.callUnary m) => some m
  | _ => none

/-- `GetUnaryResponse()`: nil (`none`) unless the oneof holds the
`UnaryResponse` variant. -/
def getUnaryResponse (r : PersistentConnectionRequest) : Option UnaryResponseMsg :=
  match r.message with
  | some (.unaryResponse m) => some m
  | _ => none

/-- `errorUnaryCallString(callID, errMsg)`. -/
def errorUnaryCallString (callID : Bytes) (errMsg : String) : PersistentConnectionResponse :=
  { callId := callID, message := .daemonError errMsg }

/-- `errorUnaryCall(callID, err)` — the message is `err.Error()`. -/
def errorUnaryCall (callID : Bytes) (err : String) : PersistentConnectionResponse :=
  { callId := callID, message := .daemonError err }

/-- `okUnaryCallResponse(callID)` — a response with the oneof unset. -/
def okUnaryCallResponse (callID : Bytes) : PersistentConnectionResponse :=
  { callId := callID, message := .ok }

/-- `okCancelled(callID)` — a `Cancel{}` response. -/
def okCancelled (callID : Bytes) : PersistentConnectionResponse :=
  { callId := callID, message := .cancel }

/-! ### Association-list maps

`sync.Map` / Go maps over call ids and protocol ids, with `Store`
(overwrite), `Load` and `Delete`. -/

/-- `Load`. -/
def alistLookup {α β : Type} [DecidableEq α] : List (α × β) → α → Option β
  | [], _ => none
  | (k, v) :: rest, key => if k = key then some v else alistLookup rest key

/-- `Store` (insert-or-overwrite). -/
def alistStore {α β : Type} [DecidableEq α] : List (α × β) → α → β → List (α × β)
  | [], key, val => [(key, val)]
  | (k, v) :: rest, key, val =>
      if k = key then (key, val) :: rest else (k, v) :: alistStore rest key val

/-- `Delete`. -/
def alistDelete {α β : Type} [DecidableEq α] : List (α × β) → α → List (α × β)
  | [], _ => []
  | (k, v) :: rest, key =>
      if k = key then alistDelete rest key else (k, v) :: alistDelete rest key

/-! ### Daemon state

The fields of `Daemon` that the persistent-connection code touches.  The
host handler table maps a protocol id to the id of the session writer the
installed handler is bound to (`SetStreamHandler(p, getPersistentStreamHandler(w))`). -/

structure Daemon where
  /-- `d.registeredUnaryProtocols : map[protocol.ID]bool`. -/
  registeredUnaryProtocols : List (String × Bool)
  /-- The Host's stream handler table; the value is the session writer the
  handler closes over. -/
  hostHandlers : List (String × Nat)
  /-- `d.cancelUnary : sync.Map` — call id ↦ has the cancel token fired? -/
  cancelUnary : List (Bytes × Bool)
  /-- `d.responseWaiters : sync.Map` — call ids with a waiting channel. -/
  responseWaiters : List Bytes
  deriving DecidableEq, Repr

/-! ### doAddUnaryHandler (persistent_stream.go lines 113–131) -/

/-- Observable actions of a worker, in program order. -/
inductive Event where
  | setHandler (proto : String)
  | removeHandler (proto : String)
  | writeClient (r : PersistentConnectionResponse)
  deriving DecidableEq, Repr

/-- `doAddUnaryHandler`: under `d.mx`, if the protocol is found and marked
registered reply `DaemonError("handler for protocol X already set")`;
otherwise `SetStreamHandler` then mark registered and reply Ok.  Returns the
response, the new daemon state and the host-call trace emitted inside. -/
def doAddUnaryHandler (d : Daemon) (w : Nat) (callID : Bytes) (proto : String) :
    PersistentConnectionResponse × Daemon × List Event :=
  match alistLookup d.registeredUnaryProtocols proto with
  | some true =>
      (errorUnaryCallString callID ("handler for protocol " ++ proto ++ " already set"),
       d, [])
  | _ =>
      (okUnaryCallResponse callID,
       { d with
          hostHandlers := alistStore d.hostHandlers proto w,
          registeredUnaryProtocols := alistStore d.registeredUnaryProtocols proto true },
       [.setHandler proto])

/-- The `AddUnaryHandler` worker goroutine (lines 56–73): run
`doAddUnaryHandler`; if the response is not a `DaemonError`, append the
protocol to the session's `streamHandlers` list; then write the response to
the client.  Returns (response, daemon, streamHandlers, event trace). -/
def addUnaryHandlerWorker (d : Daemon) (w : Nat) (streamHandlers : List String)
    (callID : Bytes) (proto : String) :
    PersistentConnectionResponse × Daemon × List String × List Event :=
  let (resp, d', tr) := doAddUnaryHandler d w callID proto
  let sh' :=
    match resp.message with
    | .daemonError _ => streamHandlers
    | _ => streamHandlers ++ [proto]
  (resp, d', sh', tr ++ [.writeClient resp])

/-! ### doSendReponseToRemote (persistent_stream.go lines 279–299) -/

/-- Go's `%d` rendering of a `uuid.UUID` (a `[16]byte` array): the decimal
bytes, space separated, in brackets. -/
def goSprintfD (b : Bytes) : String :=
  "[" ++ String.intercalate " " (b.map (fun n => toString n)) ++ "]"

/-- `doSendReponseToRemote`: parse the call id (the parse-error branch is
kept although the read loop has already parsed it); look up
`responseWaiters`; if absent reply
`DaemonError("Response for call id %d not requested or cancelled")`,
otherwise push the request into the waiter's channel and reply Ok.  Returns
the response and the list of channel pushes performed. -/
def doSendReponseToRemote (d : Daemon) (req : PersistentConnectionRequest) :
    PersistentConnectionResponse × List PersistentConnectionRequest :=
  match uuidFromBytes req.callId with
  | none =>
      (errorUnaryCallString zeroUUID "malformed request: call id not in UUID format", [])
  | some callID =>
      if callID ∈ d.responseWaiters then
        (okUnaryCallResponse callID, [req])
      else
        (errorUnaryCallString callID
          ("Response for call id " ++ goSprintfD callID ++ " not requested or cancelled"),
         [])

/-! ### Session cleanup (persistent_stream.go lines 19–30) -/

/-- The deferred cleanup of `handleUpgradedConn`: for every protocol in the
session's `streamHandlers` list, `RemoveStreamHandler` and set the registry
entry to `false`. -/
def sessionCleanup (d : Daemon) (streamHandlers : List String) : Daemon :=
  streamHandlers.foldl
    (fun d p =>
      { d with
          hostHandlers := alistDelete d.hostHandlers p,
          registeredUnaryProtocols := alistStore d.registeredUnaryProtocols p false })
    d

/-! ### The Cancel branch of the read loop (lines 100–108) -/

/-- The `Cancel` worker: `Load` the call id from `cancelUnary`; if absent,
return with no effect; if present, invoke the cancel function (mark the
token fired).  It never writes a response frame: the returned frame list is
what it writes to the client. -/
def cancelWorker (d : Daemon) (callID : Bytes) :
    Daemon × List PersistentConnectionResponse :=
  match alistLookup d.cancelUnary callID with
  | none => (d, [])
  | some _ => ({ d with cancelUnary := alistStore d.cancelUnary callID true }, [])

/-! ### The session read loop (persistent_stream.go lines 42–109) -/

/-- A Go `(value, error)` result. -/
inductive GoResult (α : Type) where
  | ok (a : α)
  | err (msg : String)
  deriving DecidableEq, Repr

/-- What one iteration of the read loop does with a frame. -/
inductive LoopOutcome where
  /-- `ReadMsg` failed: the loop returns and the session ends. -/
  | terminated
  /-- `uuid.FromBytes(req.CallId)` failed: log and `continue`; no worker is
  spawned for any variant. -/
  | droppedBadCallId
  /-- A worker goroutine was spawned for the parsed call id. -/
  | spawned (callID : Bytes)
  /-- The oneof was unset: no switch case matches, the loop continues. -/
  | ignoredUnknown
  deriving DecidableEq, Repr

/-- The dispatch decision of one read-loop iteration. -/
def readLoopStep (frame : GoResult PersistentConnectionRequest) : LoopOutcome :=
  match frame with
  | .err _ => .terminated
  | .ok req =>
      match uuidFromBytes req.callId with
      | none => .droppedBadCallId
      | some callID =>
          match req.message with
          | some _ => .spawned callID
          | none => .ignoredUnknown

/-! ### exchangeMessages and doUnaryCall (lines 133–195) -/

/-- Oracle for the racy points of `exchangeMessages`: the outcome of the
framed write and read on the remote stream and the `ctx.Err()` checks that
follow each of them, plus the final `select` between delivering the
response and `ctx.Done()`. -/
structure ExchangeEnv where
  /-- `ggio.NewDelimitedWriter(s).WriteMsg(req)` error, if any. -/
  writeErr : Option String
  /-- `ctx.Err() != nil` at the check after the write. -/
  ctxDoneAfterWrite : Bool
  /-- Error of the framed read on the remote stream (which enforces
  `network.MessageSizeMax`), if any. -/
  readErr : Option String
  /-- The frame read back from the remote stream when the read succeeds. -/
  remoteResp : PersistentConnectionRequest
  /-- `ctx.Err() != nil` at the check after the read. -/
  ctxDoneAfterRead : Bool
  /-- The final `select` took `<-ctx.Done()` instead of `rc <- resp`. -/
  ctxDoneAtSend : Bool
  deriving DecidableEq, Repr

/-- `exchangeMessages`: returns what the goroutine delivers on `rc`
(`none` = the channel is closed without a send, which happens only on the
`ctx.Err() != nil` / `ctx.Done()` branches).  The call id is re-parsed with
the error ignored, so a malformed id yields the zero UUID. -/
def exchangeMessages (env : ExchangeEnv) (req : PersistentConnectionRequest) :
    Option PersistentConnectionResponse :=
  let callID := (uuidFromBytes req.callId).getD zeroUUID
  if env.ctxDoneAfterWrite then none
  else
    match env.writeErr with
    | some e => some (errorUnaryCall callID e)
    | none =>
        if env.ctxDoneAfterRead then none
        else
          match env.readErr with
          | some e => some (errorUnaryCall callID e)
          | none =>
              if env.ctxDoneAtSend then none
              else some { callId := callID,
                          message := .callUnaryResponse (getUnaryResponse env.remoteResp) }

/-- Oracle for `doUnaryCall`: the result of `peer.IDFromBytes`, of
`host.NewStream`, the exchange oracle, and which branch the outer `select`
takes. -/
structure UnaryCallEnv where
  /-- Error of `peer.IDFromBytes(req.GetCallUnary().Peer)`, if any. -/
  peerParseErr : Option String
  /-- Error of `d.host.NewStream(ctx, pid, proto)`, if any. -/
  newStreamErr : Option String
  exchange : ExchangeEnv
  /-- The `select` observed `<-ctx.Done()` before the exchange channel was
  ready (always the case when the token fires while the exchange goroutine
  is still blocked on stream I/O). -/
  cancelObservedFirst : Bool
  deriving DecidableEq, Repr

/-- `doUnaryCall`.  `none` models the Go `nil` response produced when the
`select` receives from the exchange channel after it was closed without a
send (only possible when the context was already cancelled). -/
def doUnaryCall (env : UnaryCallEnv) (callID : Bytes) (req : PersistentConnectionRequest) :
    Option PersistentConnectionResponse :=
  match env.peerParseErr with
  | some e => some (errorUnaryCall callID e)
  | none =>
      match env.newStreamErr with
      | some e => some (errorUnaryCall callID e)
      | none =>
          if env.cancelObservedFirst then some (okCancelled callID)
          else
            match exchangeMessages env.exchange req with
            | some resp => some resp
            | none => none

/-- Result of running one `CallUnary` worker to completion. -/
structure CallUnaryOutcome where
  /-- The terminal frame the worker writes (`none` = Go `nil`). -/
  resp : Option PersistentConnectionResponse
  /-- Daemon state after the deferred `cancelUnary.Delete(callID)`. -/
  daemon : Daemon
  /-- Did `NewStream` return a stream (peer parse and open both succeeded)? -/
  streamOpened : Bool
  /-- Was `remoteStream.Close()` run (the deferred close)? -/
  streamClosed : Bool
  deriving DecidableEq, Repr

/-- The `CallUnary` worker goroutine (lines 76–89): store a fresh cancel
token under the call id, run `doUnaryCall`, then (deferred) delete the call
id from `cancelUnary`. -/
def callUnaryWorker (d : Daemon) (env : UnaryCallEnv) (callID : Bytes)
    (req : PersistentConnectionRequest) : CallUnaryOutcome :=
  let d1 : Daemon := { d with cancelUnary := alistStore d.cancelUnary callID false }
  let opened := env.peerParseErr.isNone && env.newStreamErr.isNone
  { resp := doUnaryCall env callID req
    daemon := { d1 with cancelUnary := alistDelete d1.cancelUnary callID }
    streamOpened := opened
    streamClosed := opened }

/-! ### One frame handled to completion

Sequentialisation of the read loop plus the worker it spawns: the returned
frame list is what gets written to the client's duplex for this request,
and the final `Bool` says whether the session terminated. -/

/-- A frame written on the client duplex.  `nilFrame` is `WriteMsg(nil)` —
what the `CallUnary` worker does when `doUnaryCall` returns Go `nil`. -/
inductive ClientFrame where
  | frame (r : PersistentConnectionResponse)
  | nilFrame
  deriving DecidableEq, Repr

/-- Run one read-loop iteration and its worker to completion. -/
def sessionHandleFrame (d : Daemon) (w : Nat) (sh : List String) (envU : UnaryCallEnv)
    (frame : GoResult PersistentConnectionRequest) :
    Daemon × List String × List ClientFrame × Bool :=
  match frame with
  | .err _ => (d, sh, [], true)
  | .ok req =>
      match uuidFromBytes req.callId with
      | none => (d, sh, [], false)
      | some callID =>
          match req.message with
          | some (.addUnaryHandler proto) =>
              let (resp, d', sh', _) := addUnaryHandlerWorker d w sh callID proto
              (d', sh', [.frame resp], false)
          | some (.callUnary _) =>
              let o := callUnaryWorker d envU callID req
              (o.daemon, sh,
               [match o.resp with | some r => .frame r | none => .nilFrame], false)
          | some (.unaryResponse _) =>
              let (resp, _) := doSendReponseToRemote d req
              (d, sh, [.frame resp], false)
          | some .cancel =>
              let (d', fr) := cancelWorker d callID
              (d', sh, fr.map .frame, false)
          | none => (d, sh, [], false)

/-! ### The inbound stream handler (getPersistentStreamHandler, lines 219–277) -/

/-- `req.GetCallUnary().Peer = []byte(s.Conn().RemotePeer())`: when the
oneof holds the `CallUnary` variant the peer field is overwritten with the
verified remote identity; otherwise `GetCallUnary()` is nil and the field
assignment dereferences a nil pointer (`none` = panic). -/
def setCallUnaryPeer (remotePeer : Bytes) (req : PersistentConnectionRequest) :
    Option PersistentConnectionRequest :=
  match req.message with
  | some (.callUnary m) =>
      some { req with message := some (.callUnary { m with peer := remotePeer }) }
  | _ => none

/-- Which of the two `select` arms of the handler fires. -/
inductive HandlerWait where
  /-- `awaitReadFail` fired: the remote half-closed or errored first. -/
  | readFail
  /-- The waiter channel delivered the request pushed by
  `doSendReponseToRemote`. -/
  | response (r : PersistentConnectionRequest)
  deriving DecidableEq, Repr

/-- Oracle for the handler's I/O. -/
structure HandlerEnv where
  /-- `cw.WriteMsg(RequestHandling)` failed. -/
  notifyWriteErr : Bool
  wait : HandlerWait
  /-- The `Cancel{}` write to the client failed. -/
  cancelWriteErr : Bool
  /-- The response write to the remote stream failed. -/
  remoteWriteErr : Bool
  deriving DecidableEq, Repr

/-- How one run of the inbound handler ended. -/
inductive HandlerResult where
  /-- The first framed read failed: logged and dropped. -/
  | readFailed
  /-- The first frame was not a `CallUnary`: the peer overwrite
  dereferences nil and the goroutine panics. -/
  | panicNilPeer
  /-- `uuid.FromBytes` failed on the (overwritten) request: logged,
  dropped, no response anywhere. -/
  | badCallId
  /-- The `RequestHandling` write to the client failed. -/
  | notifyWriteFailed
  /-- The remote read side failed first: `Cancel{}` sent to the client. -/
  | remoteCancelled
  /-- The client's response was relayed to the remote stream. -/
  | responded
  deriving DecidableEq, Repr

/-- One run of the inbound stream handler. -/
structure HandlerOutput where
  result : HandlerResult
  /-- Frames successfully written to the owning session's duplex. -/
  clientFrames : List PersistentConnectionResponse
  /-- Frames successfully written back to the remote stream. -/
  remoteFrames : List PersistentConnectionRequest
  /-- The call id stored in `responseWaiters` while the handler waited
  (deleted again on exit). -/
  registeredWaiter : Option Bytes
  /-- The deferred `s.Close()` ran (it also runs while a panic unwinds). -/
  streamClosed : Bool
  deriving DecidableEq, Repr

/-- The handler returned by `getPersistentStreamHandler`, run on one
inbound stream whose verified remote identity is `remotePeer` and whose
first framed read yields `frame`. -/
def persistentStreamHandler (remotePeer : Bytes)
    (frame : GoResult PersistentConnectionRequest) (env : HandlerEnv) : HandlerOutput :=
  match frame with
  | .err _ => ⟨.readFailed, [], [], none, true⟩
  | .ok req0 =>
      match setCallUnaryPeer remotePeer req0 with
      | none => ⟨.panicNilPeer, [], [], none, true⟩
      | some req =>
          match uuidFromBytes req.callId with
          | none => ⟨.badCallId, [], [], none, true⟩
          | some callID =>
              let notif : PersistentConnectionResponse :=
                { callId := req.callId, message := .requestHandling (getCallUnary req) }
              if env.notifyWriteErr then ⟨.notifyWriteFailed, [], [], some callID, true⟩
              else
                match env.wait with
                | .readFail =>
                    ⟨.remoteCancelled,
                     notif :: (if env.cancelWriteErr then [] else [okCancelled callID]),
                     [], some callID, true⟩
                | .response r =>
                    ⟨.responded, [notif],
                     if env.remoteWriteErr then [] else [r], some callID, true⟩

/-! ### Frame-size limits (C8) -/

/-- `network.MessageSizeMax` from go-libp2p-core: `1 << 22` bytes. -/
def networkMessageSizeMax : Nat := 4194304

/-- gogo's length-delimited reader accepts a frame iff its length does not
exceed the limit the reader was constructed with. -/
def framedReadOk (limit frameLen : Nat) : Bool := frameLen ≤ limit

/-- Modelled from the spec: the client-duplex framed reader is constructed
when the connection is upgraded (in daemon code not under src/) with the
configured `persistentConnMaxMsgSize` as its limit. -/
def clientDuplexLimit (cfg : Nat) : Nat := cfg

/-- The limit of the framed readers on remote P2P streams: both
`exchangeMessages` (line 173) and the inbound handler (line 224) pass the
constant `network.MessageSizeMax`, not the configured knob. -/
def remoteStreamLimit (_cfg : Nat) : Nat := networkMessageSizeMax

/-! ### Termination watchdog (lines 32–39; p2pd/main.go lines 377–379) -/

/-- p2pd/main.go: `KillOnTimeout` is invoked iff the `-idleTimeout` flag
(a duration, default 0) is strictly positive; zero leaves the watchdog
disabled. -/
def watchdogEnabled (idleTimeout : Int) : Bool := decide (0 < idleTimeout)

/-- Watchdog-related daemon state. -/
structure WatchdogState where
  liveSessions : Nat
  /-- `d.terminateOnce` has been consumed. -/
  onceDone : Bool
  /-- How many times `go d.awaitTermination()` has been launched. -/
  timerTaskStarts : Nat
  /-- A shutdown timer is pending (`d.cancelTerminateTimer != nil` and the
  timer has not fired or been cancelled). -/
  timerArmed : Bool
  deriving DecidableEq, Repr

/-- Session start (lines 32–39 of `handleUpgradedConn`): cancel any pending
shutdown timer, increment the live-session count (`terminateWG.Add(1)`),
and launch the timer task through `terminateOnce`. -/
def sessionStart (s : WatchdogState) : WatchdogState :=
  { liveSessions := s.liveSessions + 1
    onceDone := true
    timerTaskStarts := s.timerTaskStarts + (if s.onceDone then 0 else 1)
    timerArmed := false }

/-- Modelled from the spec: `awaitTermination` / `KillOnTimeout` are not
under src/ (only their call sites are); per §4.5, when the live-session
count returns to 0 the shutdown timer is (re)armed, provided the watchdog
is enabled. -/
def sessionEnd (enabled : Bool) (s : WatchdogState) : WatchdogState :=
  let n := s.liveSessions - 1
  { s with
      liveSessions := n
      timerArmed := if n = 0 && enabled then true else s.timerArmed }

/-- A session lifecycle event. -/
inductive SessionEvent where
  | start
  | stop
  deriving DecidableEq, Repr

/-- Run the watchdog state machine over a list of session events. -/
def runWatchdog (enabled : Bool) (s : WatchdogState) : List SessionEvent → WatchdogState
  | [] => s
  | e :: rest =>
      runWatchdog enabled
        (match e with
         | .start => sessionStart s
         | .stop => sessionEnd enabled s) rest

/-- The daemon's initial watchdog state: no session has ever existed. -/
def initWatchdog : WatchdogState :=
  { liveSessions := 0, onceDone := false, timerTaskStarts := 0, timerArmed := false }

/-! ### Two-daemon round trip (C1)

Daemon A registers protocol `p`; daemon B's client then calls A with
payload `x`; A's client answers with payload `y`.  The network wiring is
the identity: the frame B's exchange goroutine writes is the frame A's
inbound handler reads, the request `doSendReponseToRemote` pushes into the
waiter channel is the request the handler's `select` receives, and the
frame the handler writes back on the stream is the frame B's exchange
goroutine reads. -/

/-- All the observables of one happy-path round trip. -/
structure RoundTripRun where
  /-- A's response to its client's `AddUnaryHandler`. -/
  addResp : PersistentConnectionResponse
  /-- A's daemon state after the registration. -/
  daemonAfterAdd : Daemon
  /-- The run of A's inbound stream handler. -/
  handler : HandlerOutput
  /-- A's response to its client's `UnaryResponse`. -/
  clientAResp : PersistentConnectionResponse
  /-- The channel pushes `doSendReponseToRemote` performed. -/
  pushes : List PersistentConnectionRequest
  /-- The terminal frame B's `CallUnary` worker writes to B's client. -/
  workerBResp : Option PersistentConnectionResponse
  deriving Repr

/-- One round trip between daemons A and B: `cReg` is the call id of A's
registration, `c` the call id of B's call, `aPeer`/`bPeer` the two peer
ids, `p` the protocol, `x` the request payload and `y` the response
payload. -/
def roundTrip (d : Daemon) (w : Nat) (cReg c aPeer bPeer : Bytes) (p : String)
    (x y : Bytes) : RoundTripRun :=
  let add := doAddUnaryHandler d w cReg p
  let reqB : PersistentConnectionRequest := ⟨c, some (.callUnary ⟨aPeer, p, x⟩)⟩
  let dWait : Daemon := { add.2.1 with responseWaiters := c :: add.2.1.responseWaiters }
  let replyA : PersistentConnectionRequest := ⟨c, some (.unaryResponse ⟨some y, none⟩)⟩
  let send := doSendReponseToRemote dWait replyA
  let henv : HandlerEnv :=
    { notifyWriteErr := false
      wait := match send.2 with
              | r :: _ => .response r
              | [] => .readFail
      cancelWriteErr := false
      remoteWriteErr := false }
  let hout := persistentStreamHandler bPeer (.ok reqB) henv
  let benv : UnaryCallEnv :=
    { peerParseErr := none
      newStreamErr := none
      exchange :=
        { writeErr := none
          ctxDoneAfterWrite := false
          readErr := none
          remoteResp := hout.remoteFrames.headD ⟨[], none⟩
          ctxDoneAfterRead := false
          ctxDoneAtSend := false }
      cancelObservedFirst := false }
  { addResp := add.1
    daemonAfterAdd := add.2.1
    handler := hout
    clientAResp := send.1
    pushes := send.2
    workerBResp := doUnaryCall benv c reqB }

/-! ## Library lemmas about the association-list maps -/

theorem alistLookup_store_self {α β : Type} [DecidableEq α]
    (l : List (α × β)) (k : α) (v : β) : alistLookup (alistStore l k v) k = some v := by
  induction l with
  | nil => simp [alistStore, alistLookup]
  | cons hd tl ih =>
      obtain ⟨k', v'⟩ := hd
      by_cases h : k' = k
      · simp [alistStore, h, alistLookup]
      · simp [alistStore, h, alistLookup, ih]

theorem alistLookup_store_other {α β : Type} [DecidableEq α]
    (l : List (α × β)) (k k' : α) (v : β) (h : k ≠ k') :
    alistLookup (alistStore l k v) k' = alistLookup l k' := by
  induction l with
  | nil => simp [alistStore, alistLookup, h]
  | cons hd tl ih =>
      obtain ⟨a, b⟩ := hd
      by_cases ha : a = k
      · subst ha
        simp [alistStore, alistLookup, h]
      · simp [alistStore, ha, alistLookup, ih]

theorem alistLookup_delete_self {α β : Type} [DecidableEq α]
    (l : List (α × β)) (k : α) : alistLookup (alistDelete l k) k = none := by
  induction l with
  | nil => simp [alistDelete, alistLookup]
  | cons hd tl ih =>
      obtain ⟨a, b⟩ := hd
      by_cases ha : a = k
      · simp [alistDelete, ha, ih]
      · simp [alistDelete, ha, alistLookup, ih]

theorem alistLookup_delete_other {α β : Type} [DecidableEq α]
    (l : List (α × β)) (k k' : α) (h : k ≠ k') :
    alistLookup (alistDelete l k) k' = alistLookup l k' := by
  induction l with
  | nil => simp [alistDelete]
  | cons hd tl ih =>
      obtain ⟨a, b⟩ := hd
      by_cases ha : a = k
      · subst ha
        simp [alistDelete, alistLookup, h, ih]
      · simp [alistDelete, ha, alistLookup, ih]

theorem sessionCleanup_not_mem (hs : List String) (d : Daemon) (p : String)
    (hp : p ∉ hs) :
    alistLookup (sessionCleanup d hs).hostHandlers p = alistLookup d.hostHandlers p
    ∧ alistLookup (sessionCleanup d hs).registeredUnaryProtocols p
        = alistLookup d.registeredUnaryProtocols p := by
  induction hs generalizing d with
  | nil => exact ⟨rfl, rfl⟩
  | cons a t ih =>
      have hpa : a ≠ p := fun h => hp (h ▸ List.mem_cons_self a t)
      have hpt : p ∉ t := fun h => hp (List.mem_cons_of_mem a h)
      have step := ih
        { d with
            hostHandlers := alistDelete d.hostHandlers a
            registeredUnaryProtocols := alistStore d.registeredUnaryProtocols a false } hpt
      simpa [sessionCleanup, alistLookup_delete_other _ a p hpa,
             alistLookup_store_other _ a p false hpa] using step

theorem sessionCleanup_mem (hs : List String) (d : Daemon) (p : String) (hp : p ∈ hs) :
    alistLookup (sessionCleanup d hs).hostHandlers p = none
    ∧ alistLookup (sessionCleanup d hs).registeredUnaryProtocols p = some false := by
  induction hs generalizing d with
  | nil => cases hp
  | cons a t ih =>
      by_cases hpt : p ∈ t
      · have step := ih
          { d with
              hostHandlers := alistDelete d.hostHandlers a
              registeredUnaryProtocols := alistStore d.registeredUnaryProtocols a false } hpt
        simpa [sessionCleanup] using step
      · have hpa : p = a := by
          rcases List.mem_cons.mp hp with h | h
          · exact h
          · exact absurd h hpt
        subst hpa
        have step := sessionCleanup_not_mem t
          { d with
              hostHandlers := alistDelete d.hostHandlers p
              registeredUnaryProtocols := alistStore d.registeredUnaryProtocols p false } p hpt
        constructor
        · have : alistLookup (sessionCleanup d (p :: t)).hostHandlers p
              = alistLookup (alistDelete d.hostHandlers p) p := by
            simpa [sessionCleanup] using step.1
          rw [this]
          exact alistLookup_delete_self _ p
        · have : alistLookup (sessionCleanup d (p :: t)).registeredUnaryProtocols p
              = alistLookup (alistStore d.registeredUnaryProtocols p false) p := by
            simpa [sessionCleanup] using step.2
          rw [this]
          exact alistLookup_store_self _ p false

theorem runWatchdog_invariant (enabled : Bool) (evs : List SessionEvent)
    (s : WatchdogState)
    (h1 : s.timerTaskStarts = (if s.onceDone then 1 else 0))
    (h2 : enabled = false → s.timerArmed = false) :
    (runWatchdog enabled s evs).timerTaskStarts
        = (if (runWatchdog enabled s evs).onceDone then 1 else 0)
    ∧ (enabled = false → (runWatchdog enabled s evs).timerArmed = false) := by
  induction evs generalizing s with
  | nil => exact ⟨h1, h2⟩
  | cons e rest ih =>
      cases e with
      | start =>
          refine ih (sessionStart s) ?_ ?_
          · simp only [sessionStart, h1]
            cases ho : s.onceDone <;> simp
          · intro _
            simp [sessionStart]
      | stop =>
          refine ih (sessionEnd enabled s) ?_ ?_
          · simpa [sessionEnd] using h1
          · intro he
            simp [sessionEnd, he, h2 he]

/-! ## Claim theorems -/

/-- C2: an `AddUnaryHandler` for an already-registered protocol is refused
with `DaemonError("handler for protocol p already set")` and changes
nothing; otherwise the handler bound to this session's writer is installed
on the Host, the protocol is marked registered and appended to the
session's registered set, the reply is Ok, and in the worker's event trace
the host installation precedes the write of the Ok response. -/
theorem addUnaryHandler_register (d : Daemon) (w : Nat) (sh : List String)
    (c : Bytes) (p : String) :
    (alistLookup d.registeredUnaryProtocols p = some true →
      addUnaryHandlerWorker d w sh c p =
        (errorUnaryCallString c ("handler for protocol " ++ p ++ " already set"), d, sh,
         [.writeClient (errorUnaryCallString c ("handler for protocol " ++ p ++ " already set"))]))
    ∧ (alistLookup d.registeredUnaryProtocols p ≠ some true →
        (addUnaryHandlerWorker d w sh c p).1 = okUnaryCallResponse c
        ∧ alistLookup (addUnaryHandlerWorker d w sh c p).2.1.hostHandlers p = some w
        ∧ alistLookup (addUnaryHandlerWorker d w sh c p).2.1.registeredUnaryProtocols p
            = some true
        ∧ (addUnaryHandlerWorker d w sh c p).2.2.1 = sh ++ [p]
        ∧ (addUnaryHandlerWorker d w sh c p).2.2.2 =
            [.setHandler p, .writeClient (okUnaryCallResponse c)]) := by
  constructor
  · intro h
    simp [addUnaryHandlerWorker, doAddUnaryHandler, h, errorUnaryCallString]
  · intro h
    cases hl : alistLookup d.registeredUnaryProtocols p with
    | none =>
        simp [addUnaryHandlerWorker, doAddUnaryHandler, hl, okUnaryCallResponse,
              alistLookup_store_self]
    | some b =>
        cases b with
        | false =>
            simp [addUnaryHandlerWorker, doAddUnaryHandler, hl, okUnaryCallResponse,
                  alistLookup_store_self]
        | true => exact absurd hl h

/-- Witness for `addUnaryHandler_register` at concrete inputs: a duplicate
registration is refused, a fresh one succeeds. -/
theorem addUnaryHandler_register_witness :
    (addUnaryHandlerWorker ⟨[("/p/a", true)], [], [], []⟩ 7 [] zeroUUID "/p/a").1
      = errorUnaryCallString zeroUUID "handler for protocol /p/a already set"
    ∧ (addUnaryHandlerWorker ⟨[], [], [], []⟩ 7 [] zeroUUID "/p/b").1
      = okUnaryCallResponse zeroUUID := by
  constructor
  · have h := (addUnaryHandler_register ⟨[("/p/a", true)], [], [], []⟩ 7 [] zeroUUID "/p/a").1
      (by decide)
    exact congrArg Prod.fst h
  · exact ((addUnaryHandler_register ⟨[], [], [], []⟩ 7 [] zeroUUID "/p/b").2 (by decide)).1

/-- C4 (counterexample): on an unknown call id `doSendReponseToRemote`
replies with the message "Response for call id … not requested or
cancelled" — capitalised, with the id rendered by Go's `%d` verb on the
16-byte array — not with the message the claim states. -/
theorem unaryResponse_unknown_message_counterexample :
    (doSendReponseToRemote ⟨[], [], [], []⟩
        ⟨List.replicate 16 7, some (.unaryResponse ⟨some [1], none⟩)⟩).1
      = errorUnaryCallString (List.replicate 16 7)
          "Response for call id [7 7 7 7 7 7 7 7 7 7 7 7 7 7 7 7] not requested or cancelled"
    ∧ (doSendReponseToRemote ⟨[], [], [], []⟩
        ⟨List.replicate 16 7, some (.unaryResponse ⟨some [1], none⟩)⟩).1.message
      ≠ .daemonError
          "response for call id [7 7 7 7 7 7 7 7 7 7 7 7 7 7 7 7] not requested or cancelled" := by
  constructor
  · decide
  · decide

/-- C4 (amended): for a `UnaryResponse` whose call id parses to `c`: if `c`
has no waiting channel the reply is `DaemonError("Response for call id N
not requested or cancelled")` with `N` the Go `%d` rendering of the id and
nothing is pushed; if a channel waits, the request is pushed into it
exactly once and the reply is Ok. -/
theorem unaryResponse_delivery (d : Daemon) (req : PersistentConnectionRequest)
    (c : Bytes) (hc : uuidFromBytes req.callId = some c) :
    (c ∉ d.responseWaiters →
      doSendReponseToRemote d req =
        (errorUnaryCallString c
          ("Response for call id " ++ goSprintfD c ++ " not requested or cancelled"), []))
    ∧ (c ∈ d.responseWaiters →
      doSendReponseToRemote d req = (okUnaryCallResponse c, [req])) := by
  constructor
  · intro h
    simp [doSendReponseToRemote, hc, h]
  · intro h
    simp [doSendReponseToRemote, hc, h]

/-- Witness for `unaryResponse_delivery`: with a waiter for the call id the
request is delivered once and the client gets Ok. -/
theorem unaryResponse_delivery_witness :
    doSendReponseToRemote ⟨[], [], [], [List.replicate 16 5]⟩
        ⟨List.replicate 16 5, some (.unaryResponse ⟨some [2], none⟩)⟩
      = (okUnaryCallResponse (List.replicate 16 5),
         [⟨List.replicate 16 5, some (.unaryResponse ⟨some [2], none⟩)⟩]) := by
  exact (unaryResponse_delivery ⟨[], [], [], [List.replicate 16 5]⟩
      ⟨List.replicate 16 5, some (.unaryResponse ⟨some [2], none⟩)⟩
      (List.replicate 16 5) (by decide)).2 (by decide)

/-- C5: after session cleanup every protocol of the session's registered
set is gone from the Host handler table, its registry entry is reset, and a
new session's `AddUnaryHandler` for it succeeds with Ok and reinstalls a
handler. -/
theorem session_cleanup_reregister (d : Daemon) (hs : List String) (p : String)
    (w : Nat) (c : Bytes) (hp : p ∈ hs) :
    alistLookup (sessionCleanup d hs).hostHandlers p = none
    ∧ alistLookup (sessionCleanup d hs).registeredUnaryProtocols p = some false
    ∧ (doAddUnaryHandler (sessionCleanup d hs) w c p).1 = okUnaryCallResponse c
    ∧ alistLookup (doAddUnaryHandler (sessionCleanup d hs) w c p).2.1.hostHandlers p
        = some w := by
  obtain ⟨h1, h2⟩ := sessionCleanup_mem hs d p hp
  refine ⟨h1, h2, ?_, ?_⟩
  · simp [doAddUnaryHandler, h2]
  · simp [doAddUnaryHandler, h2, alistLookup_store_self]

/-- Witness for `session_cleanup_reregister`: a session that registered
`/p/a` and `/p/b` disconnects; a new session re-registers `/p/a`. -/
theorem session_cleanup_reregister_witness :
    alistLookup (sessionCleanup
        ⟨[("/p/a", true), ("/p/b", true)], [("/p/a", 1), ("/p/b", 1)], [], []⟩
        ["/p/a", "/p/b"]).hostHandlers "/p/a" = none
    ∧ (doAddUnaryHandler (sessionCleanup
        ⟨[("/p/a", true), ("/p/b", true)], [("/p/a", 1), ("/p/b", 1)], [], []⟩
        ["/p/a", "/p/b"]) 2 zeroUUID "/p/a").1 = okUnaryCallResponse zeroUUID := by
  have h := session_cleanup_reregister
    ⟨[("/p/a", true), ("/p/b", true)], [("/p/a", 1), ("/p/b", 1)], [], []⟩
    ["/p/a", "/p/b"] "/p/a" 2 zeroUUID (by decide)
  exact ⟨h.1, h.2.2.1⟩

/-- C7: a `Cancel` for an unknown call id changes nothing and writes no
frame; for a known call id the token is fired and still no frame is
written. -/
theorem cancel_request_effect (d : Daemon) (c : Bytes) :
    (alistLookup d.cancelUnary c = none → cancelWorker d c = (d, []))
    ∧ (cancelWorker d c).2 = []
    ∧ (∀ b, alistLookup d.cancelUnary c = some b →
        alistLookup (cancelWorker d c).1.cancelUnary c = some true) := by
  refine ⟨?_, ?_, ?_⟩
  · intro h
    simp [cancelWorker, h]
  · cases h : alistLookup d.cancelUnary c <;> simp [cancelWorker, h]
  · intro b h
    simp [cancelWorker, h, alistLookup_store_self]

/-- Witness for `cancel_request_effect`: an unknown id is a no-op, a known
id's token fires. -/
theorem cancel_request_effect_witness :
    cancelWorker ⟨[], [], [], []⟩ zeroUUID = (⟨[], [], [], []⟩, [])
    ∧ alistLookup (cancelWorker ⟨[], [], [(zeroUUID, false)], []⟩ zeroUUID).1.cancelUnary
        zeroUUID = some true := by
  constructor
  · exact (cancel_request_effect ⟨[], [], [], []⟩ zeroUUID).1 (by decide)
  · exact (cancel_request_effect ⟨[], [], [(zeroUUID, false)], []⟩ zeroUUID).2.2 false
      (by decide)

/-- C8 (counterexample): the framed readers on remote P2P streams are
constructed with the constant `network.MessageSizeMax`, not the configured
`persistent_conn_max_msg_size`; with the knob set to 1024 a remote frame of
2048 bytes is still accepted, so the knob does not bound both wires. -/
theorem remote_limit_counterexample :
    framedReadOk (remoteStreamLimit 1024) 2048 = true ∧ ¬(2048 ≤ 1024) := by
  constructor
  · decide
  · decide

/-- C8 (amended): the configured `persistent_conn_max_msg_size` bounds
frames on the local client duplex only; remote P2P stream reads are bounded
by the fixed `network.MessageSizeMax`; and a failing framed read on the
client duplex (as on an oversize frame) terminates the session. -/
theorem frame_size_limits (cfg len : Nat) (d : Daemon) (w : Nat) (sh : List String)
    (env : UnaryCallEnv) (e : String) :
    (framedReadOk (clientDuplexLimit cfg) len = true ↔ len ≤ cfg)
    ∧ (framedReadOk (remoteStreamLimit cfg) len = true ↔ len ≤ networkMessageSizeMax)
    ∧ sessionHandleFrame d w sh env (.err e) = (d, sh, [], true)
    ∧ readLoopStep (GoResult.err e) = .terminated := by
  refine ⟨?_, ?_, rfl, rfl⟩
  · simp [framedReadOk, clientDuplexLimit]
  · simp [framedReadOk, remoteStreamLimit]

/-- C6 (counterexample): a `CallUnary` request whose 3-byte call id cannot
parse is simply dropped by the read loop — no worker runs, no frame (in
particular no `DaemonError`) is written, the state is unchanged and the
session stays open — rather than being "rejected with DaemonError". -/
theorem badCallId_callUnary_counterexample :
    readLoopStep (.ok ⟨[1, 2, 3], some (.callUnary ⟨[], "/p/x", [5]⟩)⟩)
      = .droppedBadCallId
    ∧ sessionHandleFrame ⟨[], [], [], []⟩ 0 []
        ⟨none, none, ⟨none, false, none, ⟨[], none⟩, false, false⟩, false⟩
        (.ok ⟨[1, 2, 3], some (.callUnary ⟨[], "/p/x", [5]⟩)⟩)
      = (⟨[], [], [], []⟩, [], [], false) := by
  constructor
  · decide
  · decide

/-- C6 (amended): the read loop parses the call id before dispatching, so a
request with a malformed 16-byte field — of every variant, `CallUnary`
included — is logged and dropped with no response and without closing the
session; an incoming remote `CallUnary` with a malformed id is likewise
dropped by the inbound handler with no frame in either direction. -/
theorem badCallId_dropped (req : PersistentConnectionRequest) (d : Daemon) (w : Nat)
    (sh : List String) (env : UnaryCallEnv) (rp : Bytes) (henv : HandlerEnv)
    (hbad : uuidFromBytes req.callId = none) :
    readLoopStep (.ok req) = .droppedBadCallId
    ∧ sessionHandleFrame d w sh env (.ok req) = (d, sh, [], false)
    ∧ (∀ m, req.message = some (.callUnary m) →
        persistentStreamHandler rp (.ok req) henv
          = ⟨.badCallId, [], [], none, true⟩) := by
  refine ⟨?_, ?_, ?_⟩
  · simp [readLoopStep, hbad]
  · simp [sessionHandleFrame, hbad]
  · intro m hm
    simp [persistentStreamHandler, setCallUnaryPeer, hm, hbad]

/-- Witness for `badCallId_dropped` at an empty call id on a `Cancel`
request and a remote `CallUnary`. -/
theorem badCallId_dropped_witness :
    readLoopStep (.ok ⟨[], some .cancel⟩) = .droppedBadCallId
    ∧ persistentStreamHandler [9] (.ok ⟨[], some (.callUnary ⟨[], "/p/x", []⟩)⟩)
        ⟨false, .readFail, false, false⟩
      = ⟨.badCallId, [], [], none, true⟩ := by
  constructor
  · exact (badCallId_dropped ⟨[], some .cancel⟩ ⟨[], [], [], []⟩ 0 []
      ⟨none, none, ⟨none, false, none, ⟨[], none⟩, false, false⟩, false⟩ [9]
      ⟨false, .readFail, false, false⟩ (by decide)).1
  · exact (badCallId_dropped ⟨[], some (.callUnary ⟨[], "/p/x", []⟩)⟩ ⟨[], [], [], []⟩ 0 []
      ⟨none, none, ⟨none, false, none, ⟨[], none⟩, false, false⟩, false⟩ [9]
      ⟨false, .readFail, false, false⟩ (by decide)).2.2 ⟨[], "/p/x", []⟩ rfl

/-- C3: for an outbound `CallUnary` worker — a delivered remote response is
relayed as `CallUnaryResponse`; a cancellation observed before any response
yields `Cancel{}`; a failed peer parse, stream open, framed write or framed
read yields `DaemonError` with the cause; and in every case the call id is
gone from the outbound registry when the worker finishes, with the remote
stream closed whenever it was opened. -/
theorem callUnary_worker_outcomes (d : Daemon) (env : UnaryCallEnv) (c : Bytes)
    (req : PersistentConnectionRequest) (hc : uuidFromBytes req.callId = some c) :
    alistLookup (callUnaryWorker d env c req).daemon.cancelUnary c = none
    ∧ (callUnaryWorker d env c req).streamClosed = (callUnaryWorker d env c req).streamOpened
    ∧ (env.peerParseErr = none → env.newStreamErr = none →
        env.cancelObservedFirst = true →
        (callUnaryWorker d env c req).resp = some (okCancelled c))
    ∧ (env.peerParseErr = none → env.newStreamErr = none →
        env.cancelObservedFirst = false →
        env.exchange.ctxDoneAfterWrite = false → env.exchange.writeErr = none →
        env.exchange.ctxDoneAfterRead = false → env.exchange.readErr = none →
        env.exchange.ctxDoneAtSend = false →
        (callUnaryWorker d env c req).resp =
          some { callId := c,
                 message := .callUnaryResponse (getUnaryResponse env.exchange.remoteResp) })
    ∧ (∀ e, env.peerParseErr = some e →
        (callUnaryWorker d env c req).resp = some (errorUnaryCall c e))
    ∧ (∀ e, env.peerParseErr = none → env.newStreamErr = some e →
        (callUnaryWorker d env c req).resp = some (errorUnaryCall c e))
    ∧ (∀ e, env.peerParseErr = none → env.newStreamErr = none →
        env.cancelObservedFirst = false → env.exchange.ctxDoneAfterWrite = false →
        env.exchange.writeErr = some e →
        (callUnaryWorker d env c req).resp = some (errorUnaryCall c e))
    ∧ (∀ e, env.peerParseErr = none → env.newStreamErr = none →
        env.cancelObservedFirst = false → env.exchange.ctxDoneAfterWrite = false →
        env.exchange.writeErr = none → env.exchange.ctxDoneAfterRead = false →
        env.exchange.readErr = some e →
        (callUnaryWorker d env c req).resp = some (errorUnaryCall c e)) := by
  refine ⟨?_, rfl, ?_, ?_, ?_, ?_, ?_, ?_⟩
  · simp [callUnaryWorker, alistLookup_delete_self]
  · intro h1 h2 h3
    simp [callUnaryWorker, doUnaryCall, h1, h2, h3]
  · intro h1 h2 h3 h4 h5 h6 h7 h8
    simp [callUnaryWorker, doUnaryCall, exchangeMessages, h1, h2, h3, h4, h5, h6, h7, h8, hc]
  · intro e he
    simp [callUnaryWorker, doUnaryCall, he]
  · intro e h1 he
    simp [callUnaryWorker, doUnaryCall, h1, he]
  · intro e h1 h2 h3 h4 he
    simp [callUnaryWorker, doUnaryCall, exchangeMessages, h1, h2, h3, h4, he, hc]
  · intro e h1 h2 h3 h4 h5 h6 he
    simp [callUnaryWorker, doUnaryCall, exchangeMessages, h1, h2, h3, h4, h5, h6, he, hc]

/-- Witness for `callUnary_worker_outcomes`: a successful exchange relays
the remote `UnaryResponse` and leaves the registry clean. -/
theorem callUnary_worker_outcomes_witness :
    alistLookup (callUnaryWorker ⟨[], [], [], []⟩
        ⟨none, none, ⟨none, false, none,
           ⟨List.replicate 16 3, some (.unaryResponse ⟨some [9], none⟩)⟩, false, false⟩, false⟩
        (List.replicate 16 3)
        ⟨List.replicate 16 3, some (.callUnary ⟨[], "/p/e", [1]⟩)⟩).daemon.cancelUnary
        (List.replicate 16 3) = none
    ∧ (callUnaryWorker ⟨[], [], [], []⟩
        ⟨none, none, ⟨none, false, none,
           ⟨List.replicate 16 3, some (.unaryResponse ⟨some [9], none⟩)⟩, false, false⟩, false⟩
        (List.replicate 16 3)
        ⟨List.replicate 16 3, some (.callUnary ⟨[], "/p/e", [1]⟩)⟩).resp =
      some { callId := List.replicate 16 3,
             message := .callUnaryResponse (some ⟨some [9], none⟩) } := by
  have h := callUnary_worker_outcomes ⟨[], [], [], []⟩
    ⟨none, none, ⟨none, false, none,
       ⟨List.replicate 16 3, some (.unaryResponse ⟨some [9], none⟩)⟩, false, false⟩, false⟩
    (List.replicate 16 3)
    ⟨List.replicate 16 3, some (.callUnary ⟨[], "/p/e", [1]⟩)⟩ (by decide)
  refine ⟨h.1, ?_⟩
  have h4 := h.2.2.2.1 rfl rfl rfl rfl rfl rfl rfl rfl
  simpa [getUnaryResponse] using h4

/-- C9: the watchdog timer task is launched at most once over any sequence
of session starts and stops; with a non-positive `idleTimeout` the shutdown
timer is never armed; and a session start from a live count of 0 reaches
count 1 with any pending shutdown timer cancelled. -/
theorem watchdog_lifecycle (t : Int) (evs : List SessionEvent) (s : WatchdogState) :
    (runWatchdog (watchdogEnabled t) initWatchdog evs).timerTaskStarts ≤ 1
    ∧ (t ≤ 0 → (runWatchdog (watchdogEnabled t) initWatchdog evs).timerArmed = false)
    ∧ (s.liveSessions = 0 →
        (sessionStart s).liveSessions = 1 ∧ (sessionStart s).timerArmed = false) := by
  have hinv := runWatchdog_invariant (watchdogEnabled t) evs initWatchdog
    (by simp [initWatchdog]) (fun _ => rfl)
  refine ⟨?_, ?_, ?_⟩
  · rw [hinv.1]
    split <;> simp
  · intro ht
    apply hinv.2
    simp only [watchdogEnabled, decide_eq_false_iff_not]
    omega
  · intro h0
    exact ⟨by simp [sessionStart, h0], rfl⟩

/-- Witness for `watchdog_lifecycle` on a concrete event sequence with the
watchdog disabled. -/
theorem watchdog_lifecycle_witness :
    (runWatchdog (watchdogEnabled 0) initWatchdog [.start, .stop, .start]).timerTaskStarts ≤ 1
    ∧ (runWatchdog (watchdogEnabled 0) initWatchdog [.start, .stop, .start]).timerArmed = false
    ∧ (sessionStart initWatchdog).liveSessions = 1 := by
  have h := watchdog_lifecycle 0 [.start, .stop, .start] initWatchdog
  exact ⟨h.1, h.2.1 (by decide), (h.2.2 rfl).1⟩

/-- C10: the inbound stream handler is total only when the first framed
message is a `CallUnary`: any other parsed variant makes the peer-field
overwrite dereference a nil `GetCallUnary()` — a panic reachable from
remote input, hit before the call id is validated (the result is the panic,
not the bad-call-id drop, even for a malformed id) — while for a
`CallUnary` the overwrite succeeds and replaces the peer field with the
verified remote identity. -/
theorem handler_requires_callUnary (rp : Bytes) (req : PersistentConnectionRequest)
    (env : HandlerEnv) :
    ((∀ m, req.message ≠ some (.callUnary m)) →
      persistentStreamHandler rp (.ok req) env = ⟨.panicNilPeer, [], [], none, true⟩)
    ∧ (∀ m, req.message = some (.callUnary m) →
        setCallUnaryPeer rp req
          = some { req with message := some (.callUnary { m with peer := rp }) }) := by
  constructor
  · intro h
    have hset : setCallUnaryPeer rp req = none := by
      cases hm : req.message with
      | none => simp [setCallUnaryPeer, hm]
      | some m =>
          cases m with
          | addUnaryHandler p => simp [setCallUnaryPeer, hm]
          | callUnary mm => exact absurd hm (h mm)
          | unaryResponse r => simp [setCallUnaryPeer, hm]
          | cancel => simp [setCallUnaryPeer, hm]
    simp [persistentStreamHandler, hset]
  · intro m hm
    simp [setCallUnaryPeer, hm]

/-- Witness for `handler_requires_callUnary`: a remote stream whose first
frame is a `Cancel` (with a malformed call id, showing the panic precedes
id validation) panics the handler. -/
theorem handler_requires_callUnary_witness :
    persistentStreamHandler [9] (.ok ⟨[1, 2], some .cancel⟩)
        ⟨false, .readFail, false, false⟩
      = ⟨.panicNilPeer, [], [], none, true⟩ := by
  exact (handler_requires_callUnary [9] ⟨[1, 2], some .cancel⟩
      ⟨false, .readFail, false, false⟩).1 (by intro m h; simp at h)

/-- C1: registering `p` on daemon A then calling it from daemon B with
payload `x` produces exactly one client frame at A — a `RequestHandling`
whose peer is B's verified identity, whose proto is `p` and whose payload
is `x`; A's client's `UnaryResponse{payload = y}` under the same call id is
acknowledged Ok, delivered to the handler exactly once, relayed on the
stream, and B's worker replies exactly one
`CallUnaryResponse{payload = y}` for that call id. -/
theorem register_call_respond_roundtrip (d : Daemon) (w : Nat)
    (cReg c aPeer bPeer : Bytes) (p : String) (x y : Bytes)
    (hreg : alistLookup d.registeredUnaryProtocols p ≠ some true)
    (hc : c.length = 16) :
    (roundTrip d w cReg c aPeer bPeer p x y).addResp = okUnaryCallResponse cReg
    ∧ alistLookup (roundTrip d w cReg c aPeer bPeer p x y).daemonAfterAdd.hostHandlers p
        = some w
    ∧ (roundTrip d w cReg c aPeer bPeer p x y).handler.clientFrames =
        [{ callId := c, message := .requestHandling (some ⟨bPeer, p, x⟩) }]
    ∧ (roundTrip d w cReg c aPeer bPeer p x y).clientAResp = okUnaryCallResponse c
    ∧ (roundTrip d w cReg c aPeer bPeer p x y).pushes =
        [⟨c, some (.unaryResponse ⟨some y, none⟩)⟩]
    ∧ (roundTrip d w cReg c aPeer bPeer p x y).handler.remoteFrames =
        [⟨c, some (.unaryResponse ⟨some y, none⟩)⟩]
    ∧ (roundTrip d w cReg c aPeer bPeer p x y).workerBResp =
        some { callId := c, message := .callUnaryResponse (some ⟨some y, none⟩) } := by
  have hadd : doAddUnaryHandler d w cReg p =
      (okUnaryCallResponse cReg,
       { d with
          hostHandlers := alistStore d.hostHandlers p w,
          registeredUnaryProtocols := alistStore d.registeredUnaryProtocols p true },
       [.setHandler p]) := by
    cases hl : alistLookup d.registeredUnaryProtocols p with
    | none => simp [doAddUnaryHandler, hl]
    | some b =>
        cases b with
        | false => simp [doAddUnaryHandler, hl]
        | true => exact absurd hl hreg
  refine ⟨?_, ?_, ?_, ?_, ?_, ?_, ?_⟩ <;>
    simp [roundTrip, hadd, doSendReponseToRemote, uuidFromBytes, hc,
          persistentStreamHandler, setCallUnaryPeer, getCallUnary, getUnaryResponse,
          doUnaryCall, exchangeMessages, okUnaryCallResponse, alistLookup_store_self]

/-- Witness for `register_call_respond_roundtrip` on concrete daemons,
call id, protocol and payloads. -/
theorem register_call_respond_roundtrip_witness :
    (roundTrip ⟨[], [], [], []⟩ 1 zeroUUID (List.replicate 16 4) [10] [11] "/p/echo"
        [1, 2] [3, 4]).handler.clientFrames =
      [{ callId := List.replicate 16 4,
         message := .requestHandling (some ⟨[11], "/p/echo", [1, 2]⟩) }]
    ∧ (roundTrip ⟨[], [], [], []⟩ 1 zeroUUID (List.replicate 16 4) [10] [11] "/p/echo"
        [1, 2] [3, 4]).workerBResp =
      some { callId := List.replicate 16 4,
             message := .callUnaryResponse (some ⟨some [3, 4], none⟩) } := by
  have h := register_call_respond_roundtrip ⟨[], [], [], []⟩ 1 zeroUUID
    (List.replicate 16 4) [10] [11] "/p/echo" [1, 2] [3, 4] (by decide) (by decide)
  exact ⟨h.2.2.1, h.2.2.2.2.2.2⟩

end P2PD
